import Mathlib

/-!
Verification of the web windowing event bridge
(src/window_internal_web.rs).

The development shallowly embeds the bridge code:

* pure translation functions (key table, mouse button mapping) become
  Lean functions;
* each native event listener body becomes a function from its inputs to
  the list of observable outputs it produces (handler callbacks, log
  messages, backing store operations);
* the stateful redraw scheduler, custom event dispatcher and
  termination logic become explicit state passing over a `State`
  record, with host side scheduling (animation frames, zero delay
  timeouts, listener registrations) represented inside the same record.

Rust panics (unwrap on an error value) are modelled by an `Option`
result where `none` means the call panicked.  Types that live in other
modules of the repository (VirtualKeyCode, MouseButton, the WebPending
token, the scan code table) are modelled from the spec where noted.
-/

/-- Modelled from the spec: the portable virtual key code vocabulary
(crate::window::VirtualKeyCode is outside this file of the repository);
only the constructors that the web key table targets are included. -/
inductive VirtualKeyCode where
  | Escape
  | Key1 | Key2 | Key3 | Key4 | Key5 | Key6 | Key7 | Key8 | Key9 | Key0
  | Minus | Equals | Backspace | Tab
  | Q | W | E | R | T | Y | U | I | O | P
  | LBracket | RBracket | Return | LControl
  | A | S | D | F | G | H | J | K | L
  | Semicolon | Apostrophe | Grave | LShift | Backslash
  | Z | X | C | V | B | N | M
  | Comma | Period | Slash | RShift
  | NumpadMultiply | LAlt | Space | Capital
  | F1 | F2 | F3 | F4 | F5 | F6 | F7 | F8 | F9 | F10
  | PauseBreak | ScrollLock
  | Numpad7 | Numpad8 | Numpad9 | NumpadSubtract
  | Numpad4 | Numpad5 | Numpad6 | NumpadAdd
  | Numpad1 | Numpad2 | Numpad3 | Numpad0 | NumpadDecimal
  | PrintScreen | F11 | F12 | NumpadEquals
  | F13 | F14 | F15 | F16 | F17 | F18 | F19 | F20 | F21 | F22 | F23 | F24
  | Kana | Convert | NoConvert | Yen | NumpadComma | Paste
  | PrevTrack | Cut | Copy | NextTrack | NumpadEnter | RControl
  | Mute | PlayPause | MediaStop | VolumeDown | VolumeUp
  | WebHome | NumpadDivide | RAlt | Numlock
  | Home | Up | PageUp | Left | Right | End | Down | PageDown
  | Insert | Delete | LWin | RWin | Power
  | WebSearch | WebFavorites | WebRefresh | Stop | WebForward | WebBack
  | Mail | MediaSelect
  deriving DecidableEq, Repr

/-- Modelled from the spec: the mouse button vocabulary
(crate::window::MouseButton is outside this file of the repository).
The Other payload is the unsigned 16 bit ordinal the source converts
the native i16 ordinal into with try_into. -/
inductive MouseButton where
  | Left
  | Middle
  | Right
  | Other (n : Nat)
  deriving DecidableEq, Repr

/-- The key translation table key_code_from_web, transcribed arm by arm
from the source match. -/
def key_code_from_web (code : String) : Option VirtualKeyCode :=
  match code with
  | "Escape" => some VirtualKeyCode.Escape
  | "Digit1" => some VirtualKeyCode.Key1
  | "Digit2" => some VirtualKeyCode.Key2
  | "Digit3" => some VirtualKeyCode.Key3
  | "Digit4" => some VirtualKeyCode.Key4
  | "Digit5" => some VirtualKeyCode.Key5
  | "Digit6" => some VirtualKeyCode.Key6
  | "Digit7" => some VirtualKeyCode.Key7
  | "Digit8" => some VirtualKeyCode.Key8
  | "Digit9" => some VirtualKeyCode.Key9
  | "Digit0" => some VirtualKeyCode.Key0
  | "Minus" => some VirtualKeyCode.Minus
  | "Equal" => some VirtualKeyCode.Equals
  | "Backspace" => some VirtualKeyCode.Backspace
  | "Tab" => some VirtualKeyCode.Tab
  | "KeyQ" => some VirtualKeyCode.Q
  | "KeyW" => some VirtualKeyCode.W
  | "KeyE" => some VirtualKeyCode.E
  | "KeyR" => some VirtualKeyCode.R
  | "KeyT" => some VirtualKeyCode.T
  | "KeyY" => some VirtualKeyCode.Y
  | "KeyU" => some VirtualKeyCode.U
  | "KeyI" => some VirtualKeyCode.I
  | "KeyO" => some VirtualKeyCode.O
  | "KeyP" => some VirtualKeyCode.P
  | "BracketLeft" => some VirtualKeyCode.LBracket
  | "BracketRight" => some VirtualKeyCode.RBracket
  | "Enter" => some VirtualKeyCode.Return
  | "ControlLeft" => some VirtualKeyCode.LControl
  | "KeyA" => some VirtualKeyCode.A
  | "KeyS" => some VirtualKeyCode.S
  | "KeyD" => some VirtualKeyCode.D
  | "KeyF" => some VirtualKeyCode.F
  | "KeyG" => some VirtualKeyCode.G
  | "KeyH" => some VirtualKeyCode.H
  | "KeyJ" => some VirtualKeyCode.J
  | "KeyK" => some VirtualKeyCode.K
  | "KeyL" => some VirtualKeyCode.L
  | "Semicolon" => some VirtualKeyCode.Semicolon
  | "Quote" => some VirtualKeyCode.Apostrophe
  | "Backquote" => some VirtualKeyCode.Grave
  | "ShiftLeft" => some VirtualKeyCode.LShift
  | "Backslash" => some VirtualKeyCode.Backslash
  | "KeyZ" => some VirtualKeyCode.Z
  | "KeyX" => some VirtualKeyCode.X
  | "KeyC" => some VirtualKeyCode.C
  | "KeyV" => some VirtualKeyCode.V
  | "KeyB" => some VirtualKeyCode.B
  | "KeyN" => some VirtualKeyCode.N
  | "KeyM" => some VirtualKeyCode.M
  | "Comma" => some VirtualKeyCode.Comma
  | "Period" => some VirtualKeyCode.Period
  | "Slash" => some VirtualKeyCode.Slash
  | "ShiftRight" => some VirtualKeyCode.RShift
  | "NumpadMultiply" => some VirtualKeyCode.NumpadMultiply
  | "AltLeft" => some VirtualKeyCode.LAlt
  | "Space" => some VirtualKeyCode.Space
  | "CapsLock" => some VirtualKeyCode.Capital
  | "F1" => some VirtualKeyCode.F1
  | "F2" => some VirtualKeyCode.F2
  | "F3" => some VirtualKeyCode.F3
  | "F4" => some VirtualKeyCode.F4
  | "F5" => some VirtualKeyCode.F5
  | "F6" => some VirtualKeyCode.F6
  | "F7" => some VirtualKeyCode.F7
  | "F8" => some VirtualKeyCode.F8
  | "F9" => some VirtualKeyCode.F9
  | "F10" => some VirtualKeyCode.F10
  | "Pause" => some VirtualKeyCode.PauseBreak
  | "ScrollLock" => some VirtualKeyCode.ScrollLock
  | "Numpad7" => some VirtualKeyCode.Numpad7
  | "Numpad8" => some VirtualKeyCode.Numpad8
  | "Numpad9" => some VirtualKeyCode.Numpad9
  | "NumpadSubtract" => some VirtualKeyCode.NumpadSubtract
  | "Numpad4" => some VirtualKeyCode.Numpad4
  | "Numpad5" => some VirtualKeyCode.Numpad5
  | "Numpad6" => some VirtualKeyCode.Numpad6
  | "NumpadAdd" => some VirtualKeyCode.NumpadAdd
  | "Numpad1" => some VirtualKeyCode.Numpad1
  | "Numpad2" => some VirtualKeyCode.Numpad2
  | "Numpad3" => some VirtualKeyCode.Numpad3
  | "Numpad0" => some VirtualKeyCode.Numpad0
  | "NumpadDecimal" => some VirtualKeyCode.NumpadDecimal
  | "PrintScreen" => some VirtualKeyCode.PrintScreen
  | "IntlBackslash" => some VirtualKeyCode.Backslash
  | "F11" => some VirtualKeyCode.F11
  | "F12" => some VirtualKeyCode.F12
  | "NumpadEqual" => some VirtualKeyCode.NumpadEquals
  | "F13" => some VirtualKeyCode.F13
  | "F14" => some VirtualKeyCode.F14
  | "F15" => some VirtualKeyCode.F15
  | "F16" => some VirtualKeyCode.F16
  | "F17" => some VirtualKeyCode.F17
  | "F18" => some VirtualKeyCode.F18
  | "F19" => some VirtualKeyCode.F19
  | "F20" => some VirtualKeyCode.F20
  | "F21" => some VirtualKeyCode.F21
  | "F22" => some VirtualKeyCode.F22
  | "F23" => some VirtualKeyCode.F23
  | "KanaMode" => some VirtualKeyCode.Kana
  | "Lang2" => none
  | "Lang1" => none
  | "IntlRo" => none
  | "F24" => some VirtualKeyCode.F24
  | "Convert" => some VirtualKeyCode.Convert
  | "NonConvert" => some VirtualKeyCode.NoConvert
  | "IntlYen" => some VirtualKeyCode.Yen
  | "NumpadComma" => some VirtualKeyCode.NumpadComma
  | "Paste" => some VirtualKeyCode.Paste
  | "MediaTrackPrevious" => some VirtualKeyCode.PrevTrack
  | "Cut" => some VirtualKeyCode.Cut
  | "Copy" => some VirtualKeyCode.Copy
  | "MediaTrackNext" => some VirtualKeyCode.NextTrack
  | "NumpadEnter" => some VirtualKeyCode.NumpadEnter
  | "ControlRight" => some VirtualKeyCode.RControl
  | "AudioVolumeMute" => some VirtualKeyCode.Mute
  | "MediaPlayPause" => some VirtualKeyCode.PlayPause
  | "MediaStop" => some VirtualKeyCode.MediaStop
  | "VolumeDown" => some VirtualKeyCode.VolumeDown
  | "AudioVolumeDown" => some VirtualKeyCode.VolumeDown
  | "VolumeUp" => some VirtualKeyCode.VolumeUp
  | "AudioVolumeUp" => some VirtualKeyCode.VolumeUp
  | "BrowserHome" => some VirtualKeyCode.WebHome
  | "NumpadDivide" => some VirtualKeyCode.NumpadDivide
  | "AltRight" => some VirtualKeyCode.RAlt
  | "NumLock" => some VirtualKeyCode.Numlock
  | "Home" => some VirtualKeyCode.Home
  | "ArrowUp" => some VirtualKeyCode.Up
  | "PageUp" => some VirtualKeyCode.PageUp
  | "ArrowLeft" => some VirtualKeyCode.Left
  | "ArrowRight" => some VirtualKeyCode.Right
  | "End" => some VirtualKeyCode.End
  | "ArrowDown" => some VirtualKeyCode.Down
  | "PageDown" => some VirtualKeyCode.PageDown
  | "Insert" => some VirtualKeyCode.Insert
  | "Delete" => some VirtualKeyCode.Delete
  | "OSLeft" => some VirtualKeyCode.LWin
  | "MetaLeft" => some VirtualKeyCode.LWin
  | "OSRight" => some VirtualKeyCode.RWin
  | "MetaRight" => some VirtualKeyCode.RWin
  | "ContextMenu" => none
  | "Power" => some VirtualKeyCode.Power
  | "BrowserSearch" => some VirtualKeyCode.WebSearch
  | "BrowserFavorites" => some VirtualKeyCode.WebFavorites
  | "BrowserRefresh" => some VirtualKeyCode.WebRefresh
  | "BrowserStop" => some VirtualKeyCode.Stop
  | "BrowserForward" => some VirtualKeyCode.WebForward
  | "BrowserBack" => some VirtualKeyCode.WebBack
  | "LaunchMail" => some VirtualKeyCode.Mail
  | "MediaSelect" => some VirtualKeyCode.MediaSelect
  | _ => none

/-- The i16 to u16 conversion performed by try_into in
mouse_button_from_event: it succeeds exactly on values representable as
u16; the source input is an i16, so only negative values fail. -/
def tryIntoU16 (n : Int) : Option Nat :=
  if 0 ≤ n ∧ n < 65536 then some n.toNat else none

/-- mouse_button_from_event.  The input is the native i16 button
ordinal; the outer Option models a Rust panic (none = the unwrap of the
failed try_into conversion panicked), the inner Option is the functions
own Option return type.  Every match arm of the source returns Some. -/
def mouse_button_from_event (button : Int) : Option (Option MouseButton) :=
  if button = 0 then some (some MouseButton.Left)
  else if button = 1 then some (some MouseButton.Middle)
  else if button = 2 then some (some MouseButton.Right)
  else
    match tryIntoU16 button with
    | some k => some (some (MouseButton.Other k))
    | none => none

/-- Observable outputs of the keydown listener: the handler callback,
the two warning logs, and the unconditional debug info log at the end
of the listener body. -/
inductive KeyOut where
  | onKeyDown (vk : Option VirtualKeyCode) (scancode : Nat)
  | warnUnknownScancode (vk : VirtualKeyCode)
  | warnUnknownKeyCode (code : String)
  | infoKeyDebug (code : String)
  deriving DecidableEq, Repr

/-- The keydown listener body.  The scan code table
(VirtualKeyCode::get_scan_code, outside this file of the repository) is
passed in as a function argument; the listener structure itself is
transcribed from the source. -/
def keydown_listener (get_scan_code : VirtualKeyCode → Option Nat)
    (code : String) : List KeyOut :=
  (match key_code_from_web code with
   | some virtual_key_code =>
     match get_scan_code virtual_key_code with
     | some scancode => [KeyOut.onKeyDown (some virtual_key_code) scancode]
     | none => [KeyOut.warnUnknownScancode virtual_key_code]
   | none => [KeyOut.warnUnknownKeyCode code])
  ++ [KeyOut.infoKeyDebug code]

/-- Observable outputs of the mousedown and mouseup listeners. -/
inductive ButtonOut where
  | onMouseButtonDown (b : MouseButton)
  | onMouseButtonUp (b : MouseButton)
  | errorUnknownButtonDown (button : Int)
  | errorUnknownButtonUp (button : Int)
  deriving DecidableEq, Repr

/-- The mousedown listener body: match on mouse_button_from_event,
logging an error for None and delivering on_mouse_button_down for Some.
The outer Option propagates a panic from the conversion. -/
def mousedown_listener (button : Int) : Option ButtonOut :=
  match mouse_button_from_event button with
  | none => none
  | some none => some (ButtonOut.errorUnknownButtonDown button)
  | some (some b) => some (ButtonOut.onMouseButtonDown b)

/-- The mouseup listener body, same structure as mousedown. -/
def mouseup_listener (button : Int) : Option ButtonOut :=
  match mouse_button_from_event button with
  | none => none
  | some none => some (ButtonOut.errorUnknownButtonUp button)
  | some (some b) => some (ButtonOut.onMouseButtonUp b)

/-- Output of the mousemove listener: one on_mouse_move callback with
the reported position. -/
inductive MoveOut where
  | onMouseMove (pos : Int × Int)
  deriving DecidableEq, Repr

/-- The mousemove listener body: when the pointer lock flag is set the
reported position is the pair of raw movement deltas, otherwise it is
the offset of the event from the canvas origin. -/
def mousemove_listener (is_pointer_locked : Bool)
    (offset movement : Int × Int) : MoveOut :=
  if is_pointer_locked then MoveOut.onMouseMove movement
  else MoveOut.onMouseMove offset

/-- Output of the pointerlockchange listener: one
on_mouse_grab_status_changed callback with the new grab state. -/
inductive LockOut where
  | onMouseGrabStatusChanged (grabbed : Bool)
  deriving DecidableEq, Repr

/-- The pointerlockchange listener body: read the native lock state,
store it in the shared is_pointer_locked cell, notify the handler.
Returns the new cell value and the callback issued. -/
def pointerlockchange_listener (native_lock_active : Bool)
    (_old_is_pointer_locked : Bool) : Bool × LockOut :=
  (native_lock_active, LockOut.onMouseGrabStatusChanged native_lock_active)

/-- Observable outputs of the resize listener, in order: the backing
store resize, the resize notification, the forced draw. -/
inductive ResizeOut where
  | setBufferDimensions (size : Nat × Nat)
  | onResize (size : Nat × Nat)
  | onDraw
  deriving DecidableEq, Repr

/-- Modelled from the spec: the rounding applied by RoundFloat::round
(crate::numeric, outside this file of the repository) is
round-to-nearest-integer; the arithmetic is carried out over ℚ in
place of the f32/f64 of the source.  into_u32 clamps negatives to 0,
which toNat reproduces. -/
def round_to_u32 (q : ℚ) : Nat := (round q).toNat

/-- The resize listener body: recompute the unscaled size as
round(scaled size times device pixel ratio), resize the backing store,
notify resize with that size, then force one draw, in that order. -/
def resize_listener (size_scaled : ℚ × ℚ) (dpr : ℚ) : List ResizeOut :=
  let size_unscaled : Nat × Nat :=
    (round_to_u32 (size_scaled.1 * dpr), round_to_u32 (size_scaled.2 * dpr))
  [ResizeOut.setBufferDimensions size_unscaled,
   ResizeOut.onResize size_unscaled,
   ResizeOut.onDraw]

/-- Modelled from the spec: the error type send_event is declared to
return (crate::window::EventLoopSendError, outside this file of the
repository). -/
inductive EventLoopSendError where
  | eventLoopNoLongerExists
  deriving DecidableEq, Repr

/-- UserEventSenderWeb::send_event: invoke the stored action on the
event and unwrap its result, then return Ok.  The outer Option models
the panic of the unwrap: none means the action returned an error and
send_event panicked. -/
def send_event {E : Type} (action : E → Except String Unit) (event : E) :
    Option (Except EventLoopSendError Unit) :=
  match action event with
  | Except.ok _ => some (Except.ok ())
  | Except.error _ => none

/-- Handler-visible outputs and log messages of the stateful bridge. -/
inductive Out (E : Type) where
  | warnInvalidRedraw
  | onDraw
  | onUserEvent (e : E)
  | logTerminating
  | onMouseButtonDown (b : MouseButton)
  deriving DecidableEq, Repr

/-- The bridge state.  The first group of fields are the
WindowHelperWeb fields and the cells captured by the setup closures;
the second group models the host: whether an animation frame or a zero
delay timeout is currently scheduled, whether the native listeners are
still registered, and how many frame requests have been issued to the
host in total.  out is the trace of handler callbacks and logs. -/
structure State (E : Type) where
  redraw_pending : Bool
  redraw_request_action : Bool
  terminate_loop_action : Bool
  terminated : Bool
  listeners_registered : Bool
  user_event_queue : List E
  user_event_callback_pending : Bool
  host_frame_scheduled : Bool
  host_flush_scheduled : Bool
  frames_requested : Nat
  out : List (Out E)
  deriving DecidableEq, Repr

/-- WindowHelperWeb::request_redraw.  If no frame request action is
configured, log a warning and return; otherwise, if no redraw is
pending, invoke the action (request_animation_frame, counted in
frames_requested) and store the resulting pending token. -/
def request_redraw {E : Type} (s : State E) : State E :=
  if !s.redraw_request_action then
    { s with out := s.out ++ [Out.warnInvalidRedraw] }
  else if !s.redraw_pending then
    { s with
      redraw_pending := true
      host_frame_scheduled := true
      frames_requested := s.frames_requested + 1 }
  else s

/-- WindowHelperWeb::clear_redraw_pending_flag: mark the pending token
as triggered (so dropping it does not cancel anything on the host) and
clear it. -/
def clear_redraw_pending_flag {E : Type} (s : State E) : State E :=
  { s with redraw_pending := false }

/-- WindowHelperWeb::terminate_loop, together with the terminate loop
action closure installed during setup.  The pending redraw token is
dropped without being marked triggered; modelled from the spec, a
dropped untriggered token cancels the scheduled host callback.  The
frame request action is removed.  The terminate action (an FnOnce,
taken so it runs at most once) logs, sets the terminated flag and
clears the listener collection, unregistering every native listener.
The user event callback pending token and the post user event action
are not touched. -/
def terminate_loop {E : Type} (s : State E) : State E :=
  let s1 : State E :=
    { s with
      redraw_pending := false
      host_frame_scheduled := if s.redraw_pending then false
                              else s.host_frame_scheduled
      redraw_request_action := false }
  if s1.terminate_loop_action then
    { s1 with
      terminate_loop_action := false
      out := s1.out ++ [Out.logTerminating]
      terminated := true
      listeners_registered := false }
  else s1

/-- The post user event action closure installed during setup: push the
event on the shared queue; if no flush callback is pending, schedule a
zero delay timeout on the host and store the pending token.  The host
primitive is modelled as succeeding, so the action returns Ok. -/
def post_user_event {E : Type} (event : E) (s : State E) : State E :=
  let s1 : State E :=
    { s with user_event_queue := s.user_event_queue ++ [event] }
  if s1.user_event_callback_pending then s1
  else
    { s1 with
      user_event_callback_pending := true
      host_flush_scheduled := true }

/-- The frame callback registered with request_animation_frame: clear
the redraw pending flag first, then deliver on_draw.  The handler
reaction during on_draw is modelled as k calls to request_redraw.
Fires only when the host actually has a frame scheduled; returns none
otherwise. -/
def fire_frame {E : Type} (k : Nat) (s : State E) : Option (State E) :=
  if s.host_frame_scheduled then
    let s1 : State E := { s with host_frame_scheduled := false }
    let s2 : State E := clear_redraw_pending_flag s1
    let s3 : State E := { s2 with out := s2.out ++ [Out.onDraw] }
    some (request_redraw^[k] s3)
  else none

/-- Delivery loop of the user event flush callback: each swapped out
event is delivered through on_user_event; the handler reaction is
modelled by react, giving the list of events it sends (through the
post user event action) while handling that event. -/
def deliver_events {E : Type} (react : E → List E) :
    List E → State E → State E
  | [], s => s
  | e :: rest, s =>
    let s1 : State E := { s with out := s.out ++ [Out.onUserEvent e] }
    let s2 : State E := (react e).foldl (fun t e2 => post_user_event e2 t) s1
    deliver_events react rest s2

/-- The user event flush callback scheduled by set_timeout_immediate:
take the pending token (unwrap panics, modelled as none, if it is
absent), mark it triggered, swap the whole queue out for an empty one,
then deliver every swapped out event in order.  Fires only when the
host actually has the timeout scheduled. -/
def fire_flush {E : Type} (react : E → List E) (s : State E) :
    Option (State E) :=
  if s.host_flush_scheduled then
    if s.user_event_callback_pending then
      let s1 : State E :=
        { s with
          host_flush_scheduled := false
          user_event_callback_pending := false }
      let pending_events := s1.user_event_queue
      let s2 : State E := { s1 with user_event_queue := [] }
      some (deliver_events react pending_events s2)
    else none
  else none

/-- A native listener firing (mousedown as representative): the host
invokes it only while the registration is alive; after the listener
collection is cleared it can no longer fire. -/
def fire_native_mousedown {E : Type} (b : MouseButton) (s : State E) :
    Option (State E) :=
  if s.listeners_registered then
    some { s with out := s.out ++ [Out.onMouseButtonDown b] }
  else none

/-- A fully set up, running bridge state over Nat events: all actions
configured, listeners registered, nothing pending, empty trace. -/
def initState : State Nat :=
  { redraw_pending := false
    redraw_request_action := true
    terminate_loop_action := true
    terminated := false
    listeners_registered := true
    user_event_queue := []
    user_event_callback_pending := false
    host_frame_scheduled := false
    host_flush_scheduled := false
    frames_requested := 0
    out := [] }

/-- C1 (counterexample): when the configured action reports a delivery
failure, send_event does not return Ok to the caller: the internal
unwrap panics (modelled as none). -/
theorem C1_counterexample :
    send_event (fun _ : Unit => Except.error "delivery failed") () ≠
      some (Except.ok ()) := by
  simp [send_event]

/-- C1 (amended): send_event returns Ok whenever the configured action
succeeds, never returns an error value of its own, and panics (rather
than returning) when the action reports a delivery failure. -/
theorem C1_send_event_amended {E : Type}
    (action : E → Except String Unit) (event : E) :
    (∀ u : Unit, action event = Except.ok u →
      send_event action event = some (Except.ok ())) ∧
    (∀ msg : String, action event = Except.error msg →
      send_event action event = none) ∧
    (∀ err : EventLoopSendError,
      send_event action event ≠ some (Except.error err)) := by
  refine ⟨?_, ?_, ?_⟩
  · intro u hu
    simp [send_event, hu]
  · intro msg hmsg
    simp [send_event, hmsg]
  · intro err
    cases ha : action event <;> simp [send_event, ha]

/-- C1 (witness): a succeeding action yields Ok. -/
theorem C1_witness :
    send_event (fun _ : Unit => Except.ok ()) () = some (Except.ok ()) :=
  (C1_send_event_amended (fun _ : Unit => Except.ok ()) ()).1 () rfl

/-- C6: a physical key identifier that maps to a virtual key code with
a derivable scan code yields exactly one on_key_down carrying both; a
mapped identifier without a scan code yields no callback and one
warning; an unrecognized identifier yields no callback and one
warning.  (The unconditional debug info log is also traced.) -/
theorem C6_keydown_cases (gsc : VirtualKeyCode → Option Nat)
    (code : String) (vk : VirtualKeyCode) (sc : Nat) :
    (key_code_from_web code = some vk → gsc vk = some sc →
      keydown_listener gsc code =
        [KeyOut.onKeyDown (some vk) sc, KeyOut.infoKeyDebug code]) ∧
    (key_code_from_web code = some vk → gsc vk = none →
      keydown_listener gsc code =
        [KeyOut.warnUnknownScancode vk, KeyOut.infoKeyDebug code]) ∧
    (key_code_from_web code = none →
      keydown_listener gsc code =
        [KeyOut.warnUnknownKeyCode code, KeyOut.infoKeyDebug code]) := by
  refine ⟨?_, ?_, ?_⟩
  · intro hcode hsc
    simp [keydown_listener, hcode, hsc]
  · intro hcode hsc
    simp [keydown_listener, hcode, hsc]
  · intro hcode
    simp [keydown_listener, hcode]

/-- C6 (witness): the three cases at concrete inputs. -/
theorem C6_witness :
    keydown_listener (fun _ => some 1) ("Escape") =
      [KeyOut.onKeyDown (some VirtualKeyCode.Escape) 1,
       KeyOut.infoKeyDebug ("Escape")] ∧
    keydown_listener (fun _ => none) ("Escape") =
      [KeyOut.warnUnknownScancode VirtualKeyCode.Escape,
       KeyOut.infoKeyDebug ("Escape")] ∧
    keydown_listener (fun _ => some 1) ("Fn") =
      [KeyOut.warnUnknownKeyCode ("Fn"), KeyOut.infoKeyDebug ("Fn")] :=
  ⟨(C6_keydown_cases (fun _ => some 1) ("Escape") VirtualKeyCode.Escape 1).1
      rfl rfl,
   (C6_keydown_cases (fun _ => none) ("Escape") VirtualKeyCode.Escape 1).2.1
      rfl rfl,
   (C6_keydown_cases (fun _ => some 1) ("Fn") VirtualKeyCode.Escape 1).2.2
      rfl⟩

/-- C7: button ordinal 0 maps to Left, 1 to Middle, 2 to Right, and
every other non-negative i16 ordinal n to Other(n). -/
theorem C7_mouse_button_mapping (n : Int) (h0 : 0 ≤ n) (h1 : n < 32768) :
    mouse_button_from_event 0 = some (some MouseButton.Left) ∧
    mouse_button_from_event 1 = some (some MouseButton.Middle) ∧
    mouse_button_from_event 2 = some (some MouseButton.Right) ∧
    (n ≠ 0 → n ≠ 1 → n ≠ 2 →
      mouse_button_from_event n = some (some (MouseButton.Other n.toNat))) ∧
    mouse_button_from_event 5 = some (some (MouseButton.Other 5)) := by
  refine ⟨by decide, by decide, by decide, ?_, by decide⟩
  intro hn0 hn1 hn2
  simp only [mouse_button_from_event, if_neg hn0, if_neg hn1, if_neg hn2,
    tryIntoU16]
  rw [if_pos ⟨h0, by omega⟩]

/-- C7 (witness): ordinal 5 maps to Other(5) and ordinal 7 to
Other(7). -/
theorem C7_witness :
    mouse_button_from_event 5 = some (some (MouseButton.Other 5)) ∧
    mouse_button_from_event 7 =
      some (some (MouseButton.Other (7 : Int).toNat)) :=
  ⟨(C7_mouse_button_mapping 5 (by decide) (by decide)).2.2.2.2,
   (C7_mouse_button_mapping 7 (by decide) (by decide)).2.2.2.1
      (by decide) (by decide) (by decide)⟩

/-- C8: the resize listener recomputes the unscaled size as
round(scaled size times density), resizes the backing store to it,
then notifies resize with that size, then forces exactly one draw, in
that order; at scaled (800, 600) and density 2 the size is exactly
(1600, 1200), and rounding is to the nearest integer, as at
801 times 1.5 and 601 times 1.5. -/
theorem C8_resize_recompute (w h dpr : ℚ) :
    resize_listener (w, h) dpr =
      [ResizeOut.setBufferDimensions
        (round_to_u32 (w * dpr), round_to_u32 (h * dpr)),
       ResizeOut.onResize (round_to_u32 (w * dpr), round_to_u32 (h * dpr)),
       ResizeOut.onDraw] ∧
    resize_listener (800, 600) 2 =
      [ResizeOut.setBufferDimensions (1600, 1200),
       ResizeOut.onResize (1600, 1200),
       ResizeOut.onDraw] ∧
    round_to_u32 (801 * (3 / 2 : ℚ)) = 1202 ∧
    round_to_u32 (601 * (3 / 2 : ℚ)) = 902 := by
  refine ⟨rfl, ?_, ?_, ?_⟩
  · show resize_listener (800, 600) 2 = _
    simp [resize_listener, round_to_u32]
    norm_num [round_eq]
    decide
  · norm_num [round_to_u32, round_eq]
    decide
  · norm_num [round_to_u32, round_eq]
    decide

/-- C9: while the pointer lock flag is unset the mousemove listener
reports the offset from the canvas origin; a pointer lock change
notification with native lock active sets the flag and notifies the
handler, and a subsequent mousemove reports the raw movement deltas. -/
theorem C9_mouse_move_reporting (offset movement : Int × Int)
    (old : Bool) :
    mousemove_listener false offset movement =
      MoveOut.onMouseMove offset ∧
    (pointerlockchange_listener true old).1 = true ∧
    (pointerlockchange_listener true old).2 =
      LockOut.onMouseGrabStatusChanged true ∧
    mousemove_listener (pointerlockchange_listener true old).1
        offset movement = MoveOut.onMouseMove movement := by
  refine ⟨rfl, rfl, rfl, rfl⟩

/-- C10: for every non-negative i16 button ordinal the conversion
returns Some, so the unknown-button error branches of the mousedown
and mouseup listeners cannot be reached. -/
theorem C10_unknown_button_unreachable (n : Int) (h0 : 0 ≤ n)
    (h1 : n < 32768) :
    (∃ b, mouse_button_from_event n = some (some b)) ∧
    (∃ b, mousedown_listener n = some (ButtonOut.onMouseButtonDown b)) ∧
    (∃ b, mouseup_listener n = some (ButtonOut.onMouseButtonUp b)) ∧
    mousedown_listener n ≠ some (ButtonOut.errorUnknownButtonDown n) ∧
    mouseup_listener n ≠ some (ButtonOut.errorUnknownButtonUp n) := by
  have hb : ∃ b, mouse_button_from_event n = some (some b) := by
    by_cases hn0 : n = 0
    · exact ⟨MouseButton.Left, by rw [hn0]; decide⟩
    by_cases hn1 : n = 1
    · exact ⟨MouseButton.Middle, by rw [hn1]; decide⟩
    by_cases hn2 : n = 2
    · exact ⟨MouseButton.Right, by rw [hn2]; decide⟩
    refine ⟨MouseButton.Other n.toNat, ?_⟩
    simp only [mouse_button_from_event, if_neg hn0, if_neg hn1, if_neg hn2,
      tryIntoU16]
    rw [if_pos ⟨h0, by omega⟩]
  obtain ⟨b, hb⟩ := hb
  refine ⟨⟨b, hb⟩, ⟨b, ?_⟩, ⟨b, ?_⟩, ?_, ?_⟩
  · simp [mousedown_listener, hb]
  · simp [mouseup_listener, hb]
  · simp [mousedown_listener, hb]
  · simp [mouseup_listener, hb]

/-- C10 (witness): ordinal 5 reaches the callback branch in both
listeners. -/
theorem C10_witness :
    (∃ b, mousedown_listener 5 = some (ButtonOut.onMouseButtonDown b)) ∧
    (∃ b, mouseup_listener 5 = some (ButtonOut.onMouseButtonUp b)) :=
  ⟨(C10_unknown_button_unreachable 5 (by decide) (by decide)).2.1,
   (C10_unknown_button_unreachable 5 (by decide) (by decide)).2.2.1⟩

lemma request_redraw_id_of_pending {E : Type} (s : State E)
    (ha : s.redraw_request_action = true) (hp : s.redraw_pending = true) :
    request_redraw s = s := by
  simp [request_redraw, ha, hp]

lemma iterate_request_redraw_of_pending {E : Type} (k : Nat) (s : State E)
    (ha : s.redraw_request_action = true) (hp : s.redraw_pending = true) :
    request_redraw^[k] s = s := by
  induction k with
  | zero => rfl
  | succ n ih =>
    rw [Function.iterate_succ_apply, request_redraw_id_of_pending s ha hp, ih]

lemma request_redraw_first {E : Type} (s : State E)
    (ha : s.redraw_request_action = true) (hp : s.redraw_pending = false) :
    request_redraw s =
      { s with
        redraw_pending := true
        host_frame_scheduled := true
        frames_requested := s.frames_requested + 1 } := by
  simp [request_redraw, ha, hp]

lemma iterate_request_redraw_succ {E : Type} (n : Nat) (s : State E)
    (ha : s.redraw_request_action = true) (hp : s.redraw_pending = false) :
    request_redraw^[n + 1] s = request_redraw s := by
  rw [Function.iterate_succ_apply]
  have h1 : (request_redraw s).redraw_request_action = true := by
    rw [request_redraw_first s ha hp]; exact ha
  have h2 : (request_redraw s).redraw_pending = true := by
    rw [request_redraw_first s ha hp]
  exact iterate_request_redraw_of_pending n (request_redraw s) h1 h2

/-- C3: between two delivered draws (no pending token, action
configured), any positive number of request_redraw calls issues
exactly one host frame request; every call after the first is a
no-op; before the action is configured a call is a logged no-op. -/
theorem C3_redraw_coalescing (E : Type) :
    (∀ (s : State E) (N : Nat),
      s.redraw_request_action = true → s.redraw_pending = false → 1 ≤ N →
      (request_redraw^[N] s).frames_requested = s.frames_requested + 1 ∧
      request_redraw^[N] s = request_redraw s) ∧
    (∀ s : State E, s.redraw_request_action = false →
      request_redraw s = { s with out := s.out ++ [Out.warnInvalidRedraw] }) := by
  constructor
  · intro s N ha hp hN
    obtain ⟨n, rfl⟩ : ∃ n, N = n + 1 := ⟨N - 1, by omega⟩
    rw [iterate_request_redraw_succ n s ha hp]
    refine ⟨?_, rfl⟩
    rw [request_redraw_first s ha hp]
  · intro s ha
    simp [request_redraw, ha]

/-- C3 (witness): three calls from a quiescent configured state issue
exactly one frame request, and a call with no action configured only
logs. -/
theorem C3_witness :
    (request_redraw^[3] initState).frames_requested =
      initState.frames_requested + 1 ∧
    request_redraw { initState with redraw_request_action := false } =
      { { initState with redraw_request_action := false } with
        out := { initState with redraw_request_action := false }.out ++
          [Out.warnInvalidRedraw] } :=
  ⟨((C3_redraw_coalescing Nat).1 initState 3 rfl rfl (by omega)).1,
   (C3_redraw_coalescing Nat).2
     { initState with redraw_request_action := false } rfl⟩

/-- C4: when the host fires the frame callback, the pending token is
cleared before on_draw is delivered, so k greater or equal one
request_redraw calls made by the handler inside on_draw schedule
exactly one new host frame: the total count rises by one, not zero and
not two. -/
theorem C4_redraw_inside_draw {E : Type} (s : State E) (k : Nat)
    (hsched : s.host_frame_scheduled = true)
    (hact : s.redraw_request_action = true)
    (hk : 1 ≤ k) :
    ∃ t, fire_frame k s = some t ∧
      t.out = s.out ++ [Out.onDraw] ∧
      t.frames_requested = s.frames_requested + 1 ∧
      t.redraw_pending = true ∧
      t.host_frame_scheduled = true := by
  obtain ⟨n, rfl⟩ : ∃ n, k = n + 1 := ⟨k - 1, by omega⟩
  have hstep : fire_frame (n + 1) s =
      some (request_redraw^[n + 1]
        { s with
          host_frame_scheduled := false
          redraw_pending := false
          out := s.out ++ [Out.onDraw] }) := by
    simp only [fire_frame, clear_redraw_pending_flag, hsched]
    rfl
  have hstate :
      request_redraw^[n + 1]
        { s with
          host_frame_scheduled := false
          redraw_pending := false
          out := s.out ++ [Out.onDraw] } =
      request_redraw
        { s with
          host_frame_scheduled := false
          redraw_pending := false
          out := s.out ++ [Out.onDraw] } :=
    iterate_request_redraw_succ n _ hact rfl
  have hfirst :=
    request_redraw_first
      { s with
        host_frame_scheduled := false
        redraw_pending := false
        out := s.out ++ [Out.onDraw] } hact rfl
  refine ⟨_, hstep, ?_, ?_, ?_, ?_⟩ <;>
    rw [hstate, hfirst]

/-- C4 (witness): firing the frame scheduled by one request, with the
handler requesting a redraw from inside on_draw, yields exactly one
new frame request. -/
theorem C4_witness :
    ∃ t, fire_frame 1 (request_redraw initState) = some t ∧
      t.out = (request_redraw initState).out ++ [Out.onDraw] ∧
      t.frames_requested = (request_redraw initState).frames_requested + 1 ∧
      t.redraw_pending = true ∧
      t.host_frame_scheduled = true :=
  C4_redraw_inside_draw (request_redraw initState) 1 (by decide) (by decide)
    (by omega)

lemma post_user_event_eq {E : Type} (e : E) (s : State E) :
    post_user_event e s =
      { s with
        user_event_queue := s.user_event_queue ++ [e]
        user_event_callback_pending := true
        host_flush_scheduled :=
          s.host_flush_scheduled || !s.user_event_callback_pending } := by
  cases hp : s.user_event_callback_pending <;>
    simp [post_user_event, hp]

lemma foldl_post_user_event {E : Type} (l : List E) (s : State E) :
    l.foldl (fun t e => post_user_event e t) s =
      { s with
        user_event_queue := s.user_event_queue ++ l
        user_event_callback_pending :=
          s.user_event_callback_pending || !l.isEmpty
        host_flush_scheduled :=
          s.host_flush_scheduled ||
            (!s.user_event_callback_pending && !l.isEmpty) } := by
  induction l generalizing s with
  | nil =>
    simp
  | cons e rest ih =>
    rw [List.foldl_cons, ih, post_user_event_eq]
    cases hp : s.user_event_callback_pending <;>
      cases hh : s.host_flush_scheduled <;>
        simp [hp, hh]

lemma deliver_events_spec {E : Type} (react : E → List E) (q : List E)
    (s : State E) :
    deliver_events react q s =
      { s with
        out := s.out ++ q.map Out.onUserEvent
        user_event_queue := s.user_event_queue ++ (q.map react).flatten
        user_event_callback_pending :=
          s.user_event_callback_pending || !(q.map react).flatten.isEmpty
        host_flush_scheduled :=
          s.host_flush_scheduled ||
            (!s.user_event_callback_pending &&
              !(q.map react).flatten.isEmpty) } := by
  induction q generalizing s with
  | nil =>
    simp [deliver_events]
  | cons e rest ih =>
    rw [deliver_events]
    rw [show ((react e).foldl (fun t e2 => post_user_event e2 t)
        { s with out := s.out ++ [Out.onUserEvent e] }) =
      { s with
        out := s.out ++ [Out.onUserEvent e]
        user_event_queue := s.user_event_queue ++ react e
        user_event_callback_pending :=
          s.user_event_callback_pending || !(react e).isEmpty
        host_flush_scheduled :=
          s.host_flush_scheduled ||
            (!s.user_event_callback_pending && !(react e).isEmpty) }
      from foldl_post_user_event (react e)
        { s with out := s.out ++ [Out.onUserEvent e] }]
    rw [ih]
    cases hp : s.user_event_callback_pending <;>
      cases hh : s.host_flush_scheduled <;>
        cases hre : (react e).isEmpty <;>
          simp_all [List.isEmpty_iff, List.isEmpty_eq_false]

/-- C5: a scheduled flush takes and fulfils the pending token, swaps
the whole queue out, and delivers exactly the swapped out events to
on_user_event in submission order; events the handler sends during the
flush land in the fresh queue (scheduling a new flush) and are
delivered, once, by the next flush, not the current one. -/
theorem C5_flush_delivery {E : Type} (react : E → List E) (s : State E)
    (hsched : s.host_flush_scheduled = true)
    (hpend : s.user_event_callback_pending = true) :
    ∃ t, fire_flush react s = some t ∧
      t.out = s.out ++ s.user_event_queue.map Out.onUserEvent ∧
      t.user_event_queue = (s.user_event_queue.map react).flatten ∧
      t.user_event_callback_pending =
        !(s.user_event_queue.map react).flatten.isEmpty ∧
      t.host_flush_scheduled =
        !(s.user_event_queue.map react).flatten.isEmpty ∧
      ((s.user_event_queue.map react).flatten.isEmpty = false →
        ∃ u, fire_flush (fun _ => []) t = some u ∧
          u.out = t.out ++
            (s.user_event_queue.map react).flatten.map Out.onUserEvent ∧
          u.user_event_queue = []) := by
  have hstep : fire_flush react s =
      some (deliver_events react s.user_event_queue
        { s with
          host_flush_scheduled := false
          user_event_callback_pending := false
          user_event_queue := [] }) := by
    simp only [fire_flush, hsched, hpend]
    rfl
  rw [hstep]
  rw [deliver_events_spec]
  refine ⟨_, rfl, by simp, by simp, by simp, by simp, ?_⟩
  intro hne
  have hstep2 : ∀ t : State E, t.host_flush_scheduled = true →
      t.user_event_callback_pending = true →
      fire_flush (fun _ : E => []) t =
        some (deliver_events (fun _ : E => []) t.user_event_queue
          { t with
            host_flush_scheduled := false
            user_event_callback_pending := false
            user_event_queue := [] }) := by
    intro t h1 h2
    simp only [fire_flush, h1, h2]
    rfl
  rw [hstep2 _ (by simp [hne]) (by simp [hne])]
  rw [deliver_events_spec]
  refine ⟨_, rfl, by simp, ?_⟩
  simp

/-- C5 (witness): flushing the queue [0, 1] with a handler that sends
e + 10 while handling e delivers 0 then 1 and leaves [10, 11] queued
for the next flush. -/
theorem C5_witness :
    ∃ t, fire_flush (fun e => [e + 10])
        (post_user_event 1 (post_user_event 0 initState)) = some t ∧
      t.out = [Out.onUserEvent 0, Out.onUserEvent 1] ∧
      t.user_event_queue = [10, 11] := by
  obtain ⟨t, h1, h2, h3, _, _, _⟩ :=
    C5_flush_delivery (fun e => [e + 10])
      (post_user_event 1 (post_user_event 0 initState))
      (by decide) (by decide)
  exact ⟨t, h1, by rw [h2]; decide, by rw [h3]; decide⟩

/-- C2 (counterexample): enqueue one custom event (scheduling a
flush), run terminate_loop, and the still scheduled flush fires and
delivers on_user_event to the handler after termination. -/
theorem C2_counterexample :
    (terminate_loop (post_user_event 7 initState)).terminated = true ∧
    (terminate_loop (post_user_event 7 initState)).host_flush_scheduled =
      true ∧
    (fire_flush (fun _ => []) (terminate_loop (post_user_event 7 initState))).map
        State.out = some [Out.logTerminating, Out.onUserEvent 7] := by
  decide

/-- C2 (amended): after terminate_loop has run, the pending frame is
cancelled, the frame request action is removed so a redraw request is
a logged no-op, no frame callback fires, and no native event listener
callback is delivered; but an already scheduled custom event flush is
left untouched by termination and can still fire. -/
theorem C2_termination_amended {E : Type} (s t : State E)
    (hact : s.terminate_loop_action = true)
    (hframe : s.host_frame_scheduled = true → s.redraw_pending = true)
    (ht : t = terminate_loop s) :
    t.terminated = true ∧
    t.listeners_registered = false ∧
    t.redraw_pending = false ∧
    t.redraw_request_action = false ∧
    t.host_frame_scheduled = false ∧
    (∀ k, fire_frame k t = none) ∧
    (∀ b, fire_native_mousedown b t = none) ∧
    request_redraw t = { t with out := t.out ++ [Out.warnInvalidRedraw] } ∧
    t.user_event_callback_pending = s.user_event_callback_pending ∧
    t.host_flush_scheduled = s.host_flush_scheduled := by
  subst ht
  have hterm : terminate_loop s =
      { s with
        redraw_pending := false
        host_frame_scheduled :=
          if s.redraw_pending then false else s.host_frame_scheduled
        redraw_request_action := false
        terminate_loop_action := false
        out := s.out ++ [Out.logTerminating]
        terminated := true
        listeners_registered := false } := by
    simp [terminate_loop, hact]
  have hhost : (terminate_loop s).host_frame_scheduled = false := by
    rw [hterm]
    show (if s.redraw_pending then false else s.host_frame_scheduled) = false
    cases hp : s.redraw_pending
    · cases hh : s.host_frame_scheduled
      · simp
      · exact absurd (hframe hh) (by simp [hp])
    · simp
  have hlist : (terminate_loop s).listeners_registered = false := by
    rw [hterm]
  have haction : (terminate_loop s).redraw_request_action = false := by
    rw [hterm]
  refine ⟨by rw [hterm], hlist, by rw [hterm], haction, hhost, ?_, ?_, ?_,
    by rw [hterm], by rw [hterm]⟩
  · intro k
    simp [fire_frame, hhost]
  · intro b
    simp [fire_native_mousedown, hlist]
  · simp [request_redraw, haction]

/-- C2 (witness): for a concrete running state with one event queued,
termination clears the listeners but leaves the scheduled flush
untouched. -/
theorem C2_witness :
    (terminate_loop (post_user_event 3 initState)).listeners_registered =
      false ∧
    (terminate_loop (post_user_event 3 initState)).host_flush_scheduled =
      (post_user_event 3 initState).host_flush_scheduled := by
  obtain ⟨_, h2, _, _, _, _, _, _, _, h10⟩ :=
    C2_termination_amended (post_user_event 3 initState)
      (terminate_loop (post_user_event 3 initState)) (by decide) (by decide)
      rfl
  exact ⟨h2, h10⟩
